import Mathlib

/-!
Verification of the JAProxy core (Skinpack/JAProxy): a shallow embedding of
the result carrier (src/JAProxy/Result.h) and the listener helpers
(src/JAProxy/JKAListener.cpp), with theorems settling the specification
claims about them.
-/

namespace JAProxy

/-! ## Result carrier (src/JAProxy/Result.h)

`Result<T>` holds `std::optional<T> result`, `bool resultSuccess` and
`std::optional<std::string> errorMessage`.  Fallible accessors return
`Option` here. -/

structure Result (T : Type) where
  result : Option T
  resultSuccess : Bool
  errorMessage : Option String
deriving DecidableEq

/-- `Result::success(v)`: `Result{ v, true, {} }`. -/
def Result.success {T : Type} (v : T) : Result T :=
  ⟨some v, true, none⟩

/-- `Result::fail(v, message)`: `Result{ v, false, message }`. -/
def Result.fail {T : Type} (v : T) (message : String) : Result T :=
  ⟨some v, false, some message⟩

/-- `Result::fail(message)` (no value): `Result{ {}, false, message }`. -/
def Result.failMsg {T : Type} (message : String) : Result T :=
  ⟨none, false, some message⟩

/-- `Result::successOnPred(v, message, isSuccessPred)`. -/
def Result.successOnPred {T : Type} (v : T) (message : String)
    (isSuccessPred : T → Bool) : Result T :=
  if isSuccessPred v then Result.success v else Result.fail v message

/-- `Result::successOnZero(v, message)`: `successOnPred` with the
predicate `res == 0` (for values equality-comparable to 0; embedded at
`Int`). -/
def Result.successOnZero (v : Int) (message : String) : Result Int :=
  Result.successOnPred v message (fun res => res == 0)

/-- `Result::isSuccess()`. -/
def Result.isSuccess {T : Type} (r : Result T) : Bool :=
  r.resultSuccess

/-- `Result::operator bool()`: returns `isSuccess()`. -/
def Result.toBool {T : Type} (r : Result T) : Bool :=
  r.isSuccess

/-- `Result::has_value()`: whether the inner optional holds a value. -/
def Result.has_value {T : Type} (r : Result T) : Bool :=
  r.result.isSome

/-- `Result::value()`: access to the inner optional's value; fallible in the
source (empty optional is the error branch of `std::optional`), so embedded
as the `Option` itself. -/
def Result.value {T : Type} (r : Result T) : Option T :=
  r.result

/-- `Result::errorStr()`: `errorMessage.value_or("(no error message)")`. -/
def Result.errorStr {T : Type} (r : Result T) : String :=
  r.errorMessage.getD "(no error message)"

/-! ## Listener data model (src/JAProxy/JKAListener.cpp) -/

/-- An IPv4/UDP endpoint: dotted-quad address and port. -/
structure Endpoint where
  addr : String
  port : Nat
deriving DecidableEq

/-- `JKAListener::PacketDirection`. -/
inductive PacketDirection where
  | FROM_CLIENT
  | FROM_SERVER
  | NOT_RELATED
deriving DecidableEq

/-- A parsed UDP view: source endpoint, destination endpoint, payload bytes. -/
structure UdpView where
  source : Endpoint
  dest : Endpoint
  data : List Nat
deriving DecidableEq

/-- Modelled from the spec: `JKAListener::getPacketDirection` is declared in
JKAListener.h, which is not among the sources.  Per the spec, direction is
FROM_SERVER if the source endpoint equals the server endpoint, FROM_CLIENT if
the destination equals it, NOT_RELATED otherwise; the degenerate case where
both match is handled defensively as NOT_RELATED. -/
def getPacketDirection (udp : UdpView) (server : Endpoint) : PacketDirection :=
  if udp.source = server ∧ udp.dest = server then .NOT_RELATED
  else if udp.source = server then .FROM_SERVER
  else if udp.dest = server then .FROM_CLIENT
  else .NOT_RELATED

/-- One sink invocation made by the per-frame handler: the client sink or the
server sink, with the owned copy of the payload bytes handed to it. -/
inductive SinkCall where
  | clientPacket (bytes : List Nat)
  | serverPacket (bytes : List Nat)
deriving DecidableEq

/-- `JKAListener::packetArrived`: the framer result
(`SimpleUdpPacket::fromRawIp`, an external collaborator) is abstracted as the
`Option UdpView` it returns; the handler's dispatch is embedded as the list of
sink invocations it performs, in order. -/
def packetArrived (udpOpt : Option UdpView) (server : Endpoint) : List SinkCall :=
  match udpOpt with
  | none => []
  | some udp =>
    match getPacketDirection udp server with
    | .FROM_CLIENT => [.clientPacket udp.data]
    | .FROM_SERVER => [.serverPacket udp.data]
    | .NOT_RELATED => []

/-- `JKAListener::createFilterStr`: builds the BPF filter string from the
bound server address and port. -/
def createFilterStr (serverAddr : String) (serverPort : Nat) : String :=
  "udp and ((dst " ++ serverAddr ++ " and dst port " ++ toString serverPort ++
    ") or (src " ++ serverAddr ++ " and src port " ++ toString serverPort ++ "))"

/-- `JKAListenerException(step, reason)`: the structured startup error. -/
structure JKAListenerException where
  step : String
  reason : String
deriving DecidableEq

/-- `JKAListener::throwOnResultFail(step, res)`: throws
`JKAListenerException(step, res.errorStr())` when `!res`; embedded in
`Except`. -/
def throwOnResultFail {T : Type} (step : String) (res : Result T) :
    Except JKAListenerException Unit :=
  if res.isSuccess then .ok () else .error ⟨step, res.errorStr⟩

/-- The loop body of `JKAListener::trySetKnownDatalink`: walk the supported
datalink list in order; on the first known type, install it via
`setDatalink` checked by `throwOnResultFail`; if none is known, throw
"no supported datalinks".  The capture adapter's `isDatalinkKnown` and
`setDatalink` (external collaborators) are abstracted as function
parameters. -/
def findInstallDatalink (known : Int → Bool) (setDatalink : Int → Result Unit) :
    List Int → Except JKAListenerException (Option Int)
  | [] => .error ⟨"getting supported datalinks", "no supported datalinks"⟩
  | dl :: rest =>
    if known dl then
      match throwOnResultFail "setting supported datalink" (setDatalink dl) with
      | .error e => .error e
      | .ok _ => .ok (some dl)
    else findInstallDatalink known setDatalink rest

/-- `JKAListener::trySetKnownDatalink`: keep the current datalink if known;
otherwise query the supported list (throwing its error string on failure) and
install the first known entry.  Returns the datalink installed, if any.  The
dereference of the query's value assumes a stored value, as the source's
`operator->` does; an absent value reads as the empty list. -/
def trySetKnownDatalink (current : Int) (known : Int → Bool)
    (supported : Result (List Int)) (setDatalink : Int → Result Unit) :
    Except JKAListenerException (Option Int) :=
  if known current then .ok none
  else if supported.isSuccess then
    findInstallDatalink known setDatalink (supported.value.getD [])
  else .error ⟨"getting supported datalinks", supported.errorStr⟩

/-- Modelled from the spec: the body of `start` is declared in JKAListener.h,
which is not among the sources.  Per the spec, `start` performs capture open,
filter compilation/installation and datalink negotiation in order, checking
each adapter result with `throwOnResultFail` (from the source), and surfaces
the first failing step with its diagnostic to the caller. -/
def start (openRes filterRes : Result Unit) (current : Int)
    (known : Int → Bool) (supported : Result (List Int))
    (setDatalink : Int → Result Unit) : Except JKAListenerException Unit := do
  throwOnResultFail "opening live capture" openRes
  throwOnResultFail "setting filter" filterRes
  let _ ← trySetKnownDatalink current known supported setDatalink
  return ()

/-! ## Theorems -/

/-- Claim C1: for every parsed UdpView and every server endpoint, the
direction classification returns exactly one of FROM_CLIENT, FROM_SERVER,
NOT_RELATED: FROM_SERVER exactly when only the source matches the server,
FROM_CLIENT exactly when only the destination matches, NOT_RELATED otherwise;
in particular when both source and destination equal the server endpoint the
result is NOT_RELATED. -/
theorem getPacketDirection_total (udp : UdpView) (server : Endpoint) :
    (getPacketDirection udp server = .FROM_CLIENT ∨
     getPacketDirection udp server = .FROM_SERVER ∨
     getPacketDirection udp server = .NOT_RELATED) ∧
    (getPacketDirection udp server = .FROM_SERVER ↔
      udp.source = server ∧ udp.dest ≠ server) ∧
    (getPacketDirection udp server = .FROM_CLIENT ↔
      udp.dest = server ∧ udp.source ≠ server) ∧
    (udp.source = server ∧ udp.dest = server →
      getPacketDirection udp server = .NOT_RELATED) := by
  unfold getPacketDirection
  by_cases h1 : udp.source = server <;> by_cases h2 : udp.dest = server <;>
    simp [h1, h2]

/-- Witness for C1: a concrete both-matching (degenerate) view classifies as
NOT_RELATED. -/
theorem getPacketDirection_total_witness :
    getPacketDirection
      ⟨⟨"192.168.1.10", 29070⟩, ⟨"192.168.1.10", 29070⟩, [1, 2, 3]⟩
      ⟨"192.168.1.10", 29070⟩ = .NOT_RELATED :=
  (getPacketDirection_total
    ⟨⟨"192.168.1.10", 29070⟩, ⟨"192.168.1.10", 29070⟩, [1, 2, 3]⟩
    ⟨"192.168.1.10", 29070⟩).2.2.2 (by exact ⟨rfl, rfl⟩)

/-- Claim C2: for every successfully parsed frame, the per-frame handler
invokes at most one sink; on FROM_CLIENT exactly the client sink once with
bytes equal to the UDP payload, on FROM_SERVER exactly the server sink once
with those bytes, on NOT_RELATED neither sink. -/
theorem packetArrived_dispatch (udp : UdpView) (server : Endpoint) :
    (packetArrived (some udp) server).length ≤ 1 ∧
    (getPacketDirection udp server = .FROM_CLIENT →
      packetArrived (some udp) server = [.clientPacket udp.data]) ∧
    (getPacketDirection udp server = .FROM_SERVER →
      packetArrived (some udp) server = [.serverPacket udp.data]) ∧
    (getPacketDirection udp server = .NOT_RELATED →
      packetArrived (some udp) server = []) := by
  unfold packetArrived
  cases h : getPacketDirection udp server <;> simp [h]

/-- Witness for C2: the spec's scenario 1 — a client-to-server frame produces
exactly one client-sink call carrying the payload bytes. -/
theorem packetArrived_dispatch_witness :
    packetArrived
      (some ⟨⟨"10.0.0.5", 50000⟩, ⟨"192.168.1.10", 29070⟩, [255, 255, 255, 255]⟩)
      ⟨"192.168.1.10", 29070⟩ = [.clientPacket [255, 255, 255, 255]] :=
  (packetArrived_dispatch
    ⟨⟨"10.0.0.5", 50000⟩, ⟨"192.168.1.10", 29070⟩, [255, 255, 255, 255]⟩
    ⟨"192.168.1.10", 29070⟩).2.1 (by decide)

/-- Claim C3: for every frame on which the framer fails to produce a UdpView,
the per-frame handler performs no sink invocation (and, being a total
function, raises nothing). -/
theorem packetArrived_parse_failure (server : Endpoint) :
    packetArrived none server = [] := rfl

/-- Claim C4: the generated BPF filter string has exactly the documented
shape for every address and port, and for server 1.2.3.4:29070 it is exactly
the documented literal. -/
theorem createFilterStr_exact (A : String) (P : Nat) :
    createFilterStr A P =
      "udp and ((dst " ++ A ++ " and dst port " ++ toString P ++
        ") or (src " ++ A ++ " and src port " ++ toString P ++ "))" ∧
    createFilterStr "1.2.3.4" 29070 =
      "udp and ((dst 1.2.3.4 and dst port 29070) or (src 1.2.3.4 and src port 29070))" :=
  ⟨rfl, by decide⟩

/-- The loop of `trySetKnownDatalink` installs exactly the first known entry
of the supported list (`List.find?` of the known predicate), surfacing a
failed install, and reports "no supported datalinks" when none is known. -/
theorem findInstallDatalink_eq (known : Int → Bool) (setDl : Int → Result Unit)
    (l : List Int) :
    findInstallDatalink known setDl l =
      match l.find? known with
      | none => .error ⟨"getting supported datalinks", "no supported datalinks"⟩
      | some d =>
        if (setDl d).isSuccess then .ok (some d)
        else .error ⟨"setting supported datalink", (setDl d).errorStr⟩ := by
  induction l with
  | nil => rfl
  | cons hd tl ih =>
    by_cases h : known hd
    · simp only [findInstallDatalink, throwOnResultFail, h, if_true,
        List.find?_cons_of_pos _ h]
      by_cases hs : (setDl hd).isSuccess <;> simp [hs]
    · simp only [findInstallDatalink, h, if_false, Bool.false_eq_true,
        List.find?_cons_of_neg _ h, ih]

/-- Counterexample to claim C5: the negotiation can fail even though the
supported-list query succeeded and a listed type is known — namely when
installing that type fails.  Concretely, with current datalink 0 unknown,
supported list [1] whose entry 1 is known, and a failing `setDatalink`, the
procedure fails with the install step's diagnostic. -/
theorem trySetKnownDatalink_counterexample :
    trySetKnownDatalink 0 (fun d => d == 1) (Result.success [1])
        (fun _ => Result.failMsg "set failed") =
      .error ⟨"setting supported datalink", "set failed"⟩ ∧
    (Result.success ([1] : List Int)).isSuccess = true ∧
    (fun d : Int => d == 1) 1 = true :=
  ⟨rfl, rfl, rfl⟩

/-- Claim C5 (amended): if the current datalink is known, no change is made
and the procedure succeeds; if the supported-list query fails, the procedure
fails with that query's diagnostic; otherwise it installs the first known
entry of the list and succeeds when that install succeeds, fails with the
install diagnostic when it fails, and fails with "no supported datalinks"
when no listed type is known. -/
theorem trySetKnownDatalink_spec (current : Int) (known : Int → Bool)
    (supported : Result (List Int)) (setDl : Int → Result Unit) :
    (known current = true →
      trySetKnownDatalink current known supported setDl = .ok none) ∧
    (known current = false → supported.isSuccess = false →
      trySetKnownDatalink current known supported setDl =
        .error ⟨"getting supported datalinks", supported.errorStr⟩) ∧
    (known current = false → supported.isSuccess = true →
      ∀ l, supported.value = some l →
      ((l.find? known = none →
        trySetKnownDatalink current known supported setDl =
          .error ⟨"getting supported datalinks", "no supported datalinks"⟩) ∧
       (∀ d, l.find? known = some d →
        ((setDl d).isSuccess = true →
          trySetKnownDatalink current known supported setDl = .ok (some d)) ∧
        ((setDl d).isSuccess = false →
          trySetKnownDatalink current known supported setDl =
            .error ⟨"setting supported datalink", (setDl d).errorStr⟩)))) := by
  refine ⟨fun hk => ?_, fun hk hs => ?_, fun hk hs l hl => ?_⟩
  · simp [trySetKnownDatalink, hk]
  · simp [trySetKnownDatalink, hk, hs]
  · have hbase : trySetKnownDatalink current known supported setDl =
        findInstallDatalink known setDl l := by
      simp [trySetKnownDatalink, hk, hs, hl]
    refine ⟨fun hf => ?_, fun d hd => ⟨fun hset => ?_, fun hset => ?_⟩⟩
    · rw [hbase, findInstallDatalink_eq, hf]
    · rw [hbase, findInstallDatalink_eq, hd]
      simp [hset]
    · rw [hbase, findInstallDatalink_eq, hd]
      simp [hset]

/-- Witness for C5 (amended): with the current datalink already known, the
procedure succeeds making no change. -/
theorem trySetKnownDatalink_spec_witness :
    trySetKnownDatalink 1 (fun d => d == 1) (Result.failMsg "unreachable")
        (fun _ => Result.success ()) = .ok none :=
  (trySetKnownDatalink_spec 1 (fun d => d == 1) (Result.failMsg "unreachable")
    (fun _ => Result.success ())).1 rfl

/-- Claim C6: `success(v).isSuccess()` is true, `fail(msg).isSuccess()` is
false, `fail(v, msg).isSuccess()` is false, `fail(v, msg).value()` is `v`,
and boolean conversion of any Result equals its `isSuccess()`. -/
theorem result_laws (T : Type) (v : T) (msg : String) :
    (Result.success v).isSuccess = true ∧
    (Result.failMsg msg : Result T).isSuccess = false ∧
    (Result.fail v msg).isSuccess = false ∧
    (Result.fail v msg).value = some v ∧
    (∀ r : Result T, r.toBool = r.isSuccess) :=
  ⟨rfl, rfl, rfl, rfl, fun _ => rfl⟩

/-- Counterexample to claim C7: the error-string accessor of a success
Result does not return "no error message"; the source's sentinel literal has
surrounding parentheses. -/
theorem errorStr_sentinel_counterexample :
    (Result.success (0 : Int)).errorStr ≠ "no error message" := by
  decide

/-- Claim C7 (amended): for every Result produced by `success(v)`, and
generally for every Result with no stored diagnostic, the error-string
accessor returns the sentinel string "(no error message)". -/
theorem errorStr_sentinel (T : Type) (v : T) (r : Result T) :
    (Result.success v).errorStr = "(no error message)" ∧
    (r.errorMessage = none → r.errorStr = "(no error message)") := by
  refine ⟨rfl, fun h => ?_⟩
  simp [Result.errorStr, h]

/-- Witness for C7 (amended): evaluated on a concrete success Result, which
stores no diagnostic. -/
theorem errorStr_sentinel_witness :
    (Result.success (0 : Int)).errorStr = "(no error message)" :=
  (errorStr_sentinel Int 0 (Result.success 0)).2 rfl

/-- Claim C8: `successOnPred(v, msg, pred)` is `success(v)` when `pred(v)`
holds and `fail(v, msg)` otherwise; `successOnZero(v, msg)` is its
specialization with the predicate `v == 0`. -/
theorem successOnPred_spec (T : Type) (v : T) (msg : String) (pred : T → Bool)
    (w : Int) :
    Result.successOnPred v msg pred =
      (if pred v then Result.success v else Result.fail v msg) ∧
    Result.successOnZero w msg =
      Result.successOnPred w msg (fun res => res == 0) ∧
    Result.successOnZero w msg =
      (if w = 0 then Result.success w else Result.fail w msg) := by
  refine ⟨rfl, rfl, ?_⟩
  unfold Result.successOnZero Result.successOnPred
  by_cases h : w = 0 <;> simp [h]

/-- Claim C9: every startup error — capture-open failure, filter-compile
failure, datalink negotiation failure — is surfaced synchronously by `start`
carrying the failing step's name and the underlying diagnostic string. -/
theorem start_error_surfacing (openRes filterRes : Result Unit) (current : Int)
    (known : Int → Bool) (supported : Result (List Int))
    (setDl : Int → Result Unit) :
    (openRes.isSuccess = false →
      start openRes filterRes current known supported setDl =
        .error ⟨"opening live capture", openRes.errorStr⟩) ∧
    (openRes.isSuccess = true → filterRes.isSuccess = false →
      start openRes filterRes current known supported setDl =
        .error ⟨"setting filter", filterRes.errorStr⟩) ∧
    (openRes.isSuccess = true → filterRes.isSuccess = true →
      ∀ e, trySetKnownDatalink current known supported setDl = .error e →
        start openRes filterRes current known supported setDl = .error e) := by
  refine ⟨fun ho => ?_, fun ho hf => ?_, fun ho hf e he => ?_⟩
  · simp [start, throwOnResultFail, ho, Bind.bind, Except.bind]
  · simp [start, throwOnResultFail, ho, hf, Bind.bind, Except.bind]
  · simp [start, throwOnResultFail, ho, hf, he, Bind.bind, Except.bind,
      Functor.map, Except.map]

/-- Witness for C9: a concrete failing capture open surfaces its step name
and diagnostic. -/
theorem start_error_surfacing_witness :
    start (Result.failMsg "device busy") (Result.success ()) 1
        (fun d => d == 1) (Result.success [1]) (fun _ => Result.success ()) =
      .error ⟨"opening live capture", "device busy"⟩ :=
  (start_error_surfacing (Result.failMsg "device busy") (Result.success ()) 1
    (fun d => d == 1) (Result.success [1]) (fun _ => Result.success ())).1 rfl

/-- Claim C10: `fail(msg)` stores no value, `success(v)` and `fail(v, msg)`
store `v`; value access is well-defined exactly when a value is stored, and
on a value-less Result it hits the empty branch of the underlying optional. -/
theorem result_value_presence (T : Type) (v : T) (msg : String) (r : Result T) :
    (Result.failMsg msg : Result T).has_value = false ∧
    (Result.success v).has_value = true ∧
    (Result.fail v msg).has_value = true ∧
    (Result.success v).value = some v ∧
    (Result.fail v msg).value = some v ∧
    (r.has_value = true ↔ ∃ w, r.value = some w) ∧
    (r.has_value = false → r.value = none) := by
  refine ⟨rfl, rfl, rfl, rfl, rfl, ?_, ?_⟩ <;>
    cases hr : r.result <;> simp [Result.has_value, Result.value, hr]

/-- Witness for C10: a value-less failure Result evaluates to a `none` value
access. -/
theorem result_value_presence_witness :
    (Result.failMsg "m" : Result Int).value = none :=
  (result_value_presence Int 0 "m" (Result.failMsg "m")).2.2.2.2.2.2 rfl

end JAProxy
